/-
Verification of the greenhouse Modbus simulator core:
the register-map data model (src/server/data_model.py), the fan
controller (src/server/fan.py) and the sensor simulator
(src/server/sensors.py), shallowly embedded in Lean 4.

Modelling conventions:
  * Register banks are unsigned cells (`Nat`), matching the 16-bit
    unsigned register semantics of the Modbus map; boolean banks are
    `Bool` cells.  A bank is a total function together with its
    configured length; every access is bounds-checked against the
    length, so values beyond the length are never observed.
  * The backing Register Store is the pyModbusTCP `DataBank`, which is
    not part of this repository; it is modelled from the spec (§4.1):
    `get`/`set` signal OutOfRange (here: `none`) exactly when
    `addr + count` exceeds the bank's configured length, and perform no
    other validation.
  * Python exceptions raised by the data model are modelled with
    `Except`; `random.randint` jitter values are passed in as explicit
    `Int` parameters.
  * `int(rpm_sp * 0.6)` in fan.py is modelled as `3 * rpm_sp / 5`
    (natural-number floor division): for every setpoint in the 16-bit
    register range the IEEE-754 double computation `int(sp * 0.6)`
    equals `⌊3·sp/5⌋`, because the accumulated rounding error is far
    below the distance to the nearest integer boundary.
-/
import Mathlib

set_option linter.unusedVariables false

/-- Modelled from the spec: the Register Store (pyModbusTCP `DataBank`,
not part of this repository) — four independently sized, zero-based
banks of cells with bounds checking.  Each bank is a total function
plus its configured length. -/
structure RegisterStore where
  iRegsLen : Nat
  iRegs : Nat → Nat
  hRegsLen : Nat
  hRegs : Nat → Nat
  coilsLen : Nat
  coils : Nat → Bool
  diLen : Nat
  dInputs : Nat → Bool

namespace RegisterStore

/-- Modelled from the spec: Register Store `get` on the input-register
bank; OutOfRange (`none`) iff `address + number` exceeds the bank's
configured length, never truncated or padded. -/
def get_input_registers (s : RegisterStore) (address number : Nat) : Option (List Nat) :=
  if address + number ≤ s.iRegsLen then
    some ((List.range number).map (fun i => s.iRegs (address + i)))
  else none

/-- Modelled from the spec: Register Store `set` on the input-register
bank; OutOfRange (`none`) iff the written span exceeds the configured
length; no value-range validation at this layer. -/
def set_input_registers (s : RegisterStore) (address : Nat) (word_list : List Nat) :
    Option RegisterStore :=
  if address + word_list.length ≤ s.iRegsLen then
    some { s with iRegs := fun a =>
      if address ≤ a ∧ a < address + word_list.length then word_list.getD (a - address) 0
      else s.iRegs a }
  else none

/-- Modelled from the spec: Register Store `get` on the holding-register bank. -/
def get_holding_registers (s : RegisterStore) (address number : Nat) : Option (List Nat) :=
  if address + number ≤ s.hRegsLen then
    some ((List.range number).map (fun i => s.hRegs (address + i)))
  else none

/-- Modelled from the spec: Register Store `set` on the holding-register bank. -/
def set_holding_registers (s : RegisterStore) (address : Nat) (word_list : List Nat) :
    Option RegisterStore :=
  if address + word_list.length ≤ s.hRegsLen then
    some { s with hRegs := fun a =>
      if address ≤ a ∧ a < address + word_list.length then word_list.getD (a - address) 0
      else s.hRegs a }
  else none

/-- Modelled from the spec: Register Store `get` on the coil bank. -/
def get_coils (s : RegisterStore) (address number : Nat) : Option (List Bool) :=
  if address + number ≤ s.coilsLen then
    some ((List.range number).map (fun i => s.coils (address + i)))
  else none

/-- Modelled from the spec: Register Store `set` on the coil bank. -/
def set_coils (s : RegisterStore) (address : Nat) (bit_list : List Bool) :
    Option RegisterStore :=
  if address + bit_list.length ≤ s.coilsLen then
    some { s with coils := fun a =>
      if address ≤ a ∧ a < address + bit_list.length then bit_list.getD (a - address) false
      else s.coils a }
  else none

/-- Modelled from the spec: Register Store `get` on the discrete-input bank. -/
def get_discrete_inputs (s : RegisterStore) (address number : Nat) : Option (List Bool) :=
  if address + number ≤ s.diLen then
    some ((List.range number).map (fun i => s.dInputs (address + i)))
  else none

/-- Modelled from the spec: Register Store `set` on the discrete-input bank. -/
def set_discrete_inputs (s : RegisterStore) (address : Nat) (bit_list : List Bool) :
    Option RegisterStore :=
  if address + bit_list.length ≤ s.diLen then
    some { s with dInputs := fun a =>
      if address ≤ a ∧ a < address + bit_list.length then bit_list.getD (a - address) false
      else s.dInputs a }
  else none

end RegisterStore

/-- The error raised by the data model's generic readers
(`IndexError(f"... address out of range: {addr}")` in data_model.py):
it identifies the bank (via the message text) and the offending address. -/
structure OutOfRangeError where
  bank : String
  addr : Nat
deriving DecidableEq, Repr

/-- `DataModel` (data_model.py) owns exactly one Register Store
(`self._db`), so it is identified with the store it wraps. -/
abbrev DataModel := RegisterStore

/- The address map of data_model.py (`Addresses` dataclass). -/
namespace Addresses

def IR_AIRFLOW : Nat := 0
def IR_TEMPERATURE : Nat := 1
def IR_HUMIDITY : Nat := 2
def IR_FAN_RPM : Nat := 3
def IR_FAN_STATE : Nat := 4

def HR_AIRFLOW_SP : Nat := 0
def HR_TEMPERATURE_SP : Nat := 1
def HR_FAN_MODE_CMD : Nat := 2
def HR_FAN_RPM_SP : Nat := 3
def HR_SIM_ENABLE : Nat := 4

def COIL_FAN_ENABLE : Nat := 0
def COIL_FAN_HIGH_REQ : Nat := 1
def COIL_ALARM_RESET : Nat := 2

def DI_FAN_FAULT : Nat := 0
def DI_FILTER_DIRTY : Nat := 1
def DI_FAN_RUNNING : Nat := 2

end Addresses

namespace DataModel

/-- `DataModel.read_input`: single-cell read, raising `IndexError` when
the store reports out of range. -/
def read_input (m : DataModel) (addr : Nat) : Except OutOfRangeError Nat :=
  match m.get_input_registers addr 1 with
  | some vals => .ok (vals.getD 0 0)
  | none => .error ⟨"Input register", addr⟩

/-- `DataModel.write_input`: single-cell write.  The Python method
discards the store's return value, so an out-of-range write leaves the
store unchanged and raises nothing. -/
def write_input (m : DataModel) (addr : Nat) (value : Nat) : DataModel :=
  (m.set_input_registers addr [value]).getD m

/-- `DataModel.read_holding`. -/
def read_holding (m : DataModel) (addr : Nat) : Except OutOfRangeError Nat :=
  match m.get_holding_registers addr 1 with
  | some vals => .ok (vals.getD 0 0)
  | none => .error ⟨"Holding register", addr⟩

/-- `DataModel.write_holding`: discards the store's return value. -/
def write_holding (m : DataModel) (addr : Nat) (value : Nat) : DataModel :=
  (m.set_holding_registers addr [value]).getD m

/-- `DataModel.read_coil`. -/
def read_coil (m : DataModel) (addr : Nat) : Except OutOfRangeError Bool :=
  match m.get_coils addr 1 with
  | some vals => .ok (vals.getD 0 false)
  | none => .error ⟨"Coil", addr⟩

/-- `DataModel.write_coil`: discards the store's return value. -/
def write_coil (m : DataModel) (addr : Nat) (value : Bool) : DataModel :=
  (m.set_coils addr [value]).getD m

/-- `DataModel.read_di`. -/
def read_di (m : DataModel) (addr : Nat) : Except OutOfRangeError Bool :=
  match m.get_discrete_inputs addr 1 with
  | some vals => .ok (vals.getD 0 false)
  | none => .error ⟨"Discrete input", addr⟩

/-- `DataModel.write_di`: discards the store's return value. -/
def write_di (m : DataModel) (addr : Nat) (value : Bool) : DataModel :=
  (m.set_discrete_inputs addr [value]).getD m

/-- `DataModel.get_sim_enabled`: true iff the sim-enable holding
register equals 1 (note: `== 1`, not nonzero). -/
def get_sim_enabled (m : DataModel) : Except OutOfRangeError Bool := do
  let v ← m.read_holding Addresses.HR_SIM_ENABLE
  pure (v == 1)

/-- `DataModel.get_fan_mode_cmd`. -/
def get_fan_mode_cmd (m : DataModel) : Except OutOfRangeError Nat :=
  m.read_holding Addresses.HR_FAN_MODE_CMD

/-- `DataModel.get_fan_rpm_sp`. -/
def get_fan_rpm_sp (m : DataModel) : Except OutOfRangeError Nat :=
  m.read_holding Addresses.HR_FAN_RPM_SP

/-- `DataModel.fan_enable`. -/
def fan_enable (m : DataModel) : Except OutOfRangeError Bool :=
  m.read_coil Addresses.COIL_FAN_ENABLE

/-- `DataModel.fan_high_requested`. -/
def fan_high_requested (m : DataModel) : Except OutOfRangeError Bool :=
  m.read_coil Addresses.COIL_FAN_HIGH_REQ

/-- `DataModel.set_fan_state`: writes the fan-state input register and,
in the same call, the fan-running discrete input as `state > 0`. -/
def set_fan_state (m : DataModel) (state : Nat) : DataModel :=
  (m.write_input Addresses.IR_FAN_STATE state).write_di
    Addresses.DI_FAN_RUNNING (decide (state > 0))

/-- `DataModel.set_airflow`. -/
def set_airflow (m : DataModel) (value_scaled : Nat) : DataModel :=
  m.write_input Addresses.IR_AIRFLOW value_scaled

/-- `DataModel.set_temperature`. -/
def set_temperature (m : DataModel) (value_scaled : Nat) : DataModel :=
  m.write_input Addresses.IR_TEMPERATURE value_scaled

/-- `DataModel.set_humidity`. -/
def set_humidity (m : DataModel) (value_scaled : Nat) : DataModel :=
  m.write_input Addresses.IR_HUMIDITY value_scaled

/-- `DataModel.set_fan_rpm`. -/
def set_fan_rpm (m : DataModel) (rpm : Nat) : DataModel :=
  m.write_input Addresses.IR_FAN_RPM rpm

/-- `DataModel.set_fault`. -/
def set_fault (m : DataModel) (fault : Bool) : DataModel :=
  m.write_di Addresses.DI_FAN_FAULT fault

/-- `DataModel.set_filter_dirty`. -/
def set_filter_dirty (m : DataModel) (dirty : Bool) : DataModel :=
  m.write_di Addresses.DI_FILTER_DIRTY dirty

/-- `DataModel.consume_alarm_reset`: returns the alarm-reset coil and,
when it is true, clears it before returning.  The resulting model is
returned alongside the flag. -/
def consume_alarm_reset (m : DataModel) : Except OutOfRangeError (Bool × DataModel) := do
  let v ← m.read_coil Addresses.COIL_ALARM_RESET
  if v then
    pure (true, m.write_coil Addresses.COIL_ALARM_RESET false)
  else
    pure (false, m)

/-- `DataModel._init_banks`: fresh banks, pre-sized with headroom
(32 cells per register bank, 16 per boolean bank), zero-filled.
The store itself is modelled from the spec (banks sized at
initialization); the sizes are the ones _init_banks writes. -/
def initBanks : DataModel where
  iRegsLen := 32
  iRegs := fun _ => 0
  hRegsLen := 32
  hRegs := fun _ => 0
  coilsLen := 16
  coils := fun _ => false
  diLen := 16
  dInputs := fun _ => false

/-- `DataModel.__init__` with a fresh store: `_init_banks` then
`_init_defaults` (airflow SP 250, temperature SP 225, fan mode 0,
RPM SP 900, sim-enable 1, fan-enable coil true). -/
def init : DataModel :=
  (((((initBanks.write_holding Addresses.HR_AIRFLOW_SP 250).write_holding
      Addresses.HR_TEMPERATURE_SP 225).write_holding
      Addresses.HR_FAN_MODE_CMD 0).write_holding
      Addresses.HR_FAN_RPM_SP 900).write_holding
      Addresses.HR_SIM_ENABLE 1).write_coil
      Addresses.COIL_FAN_ENABLE true

/-- A register map whose banks cover every address the core uses:
all the mapped input registers, holding registers, coils and discrete
inputs are in range.  Holds for every store produced by `_init_banks`
and for any larger shared store. -/
abbrev wellSized (m : DataModel) : Prop :=
  5 ≤ m.iRegsLen ∧ 5 ≤ m.hRegsLen ∧ 3 ≤ m.coilsLen ∧ 3 ≤ m.diLen

end DataModel

/-- `FanController.update` (fan.py).  `jitter` stands for the single
`random.randint` draw the tick makes (range -10..10 in LOW, -15..15 in
HIGH; the claims quantify over it, so it is left unconstrained). -/
def FanController.update (m : DataModel) (jitter : Int) :
    Except OutOfRangeError DataModel := do
  let fanEn ← m.fan_enable
  let state ←
    if !fanEn then
      pure 0
    else do
      let mode_cmd ← m.get_fan_mode_cmd
      if mode_cmd = 1 ∨ mode_cmd = 2 then
        pure mode_cmd
      else do
        let hi ← m.fan_high_requested
        pure (if hi then 2 else 1)
  let m1 := m.set_fan_state state
  let rpm_sp ← m1.get_fan_rpm_sp
  let rpm_actual : Int :=
    if state = 0 then 0
    else if state = 1 then ((3 * rpm_sp / 5 : Nat) : Int) + jitter
    else (rpm_sp : Int) + jitter
  let m2 := m1.set_fan_rpm (max 0 rpm_actual).toNat
  let fault : Bool := decide (state > 0) && decide (rpm_actual < 100)
  let m3 := m2.set_fault fault
  let r ← m3.consume_alarm_reset
  if r.1 then
    pure (r.2.set_fault false)
  else
    pure r.2

/-- `SensorSimulator.update` (sensors.py).  `jt`, `jh`, `ja` stand for
the three `random.randint` draws (temperature -2..2, humidity -10..10,
airflow -5..5); the claims quantify over them. -/
def SensorSimulator.update (m : DataModel) (jt jh ja : Int) :
    Except OutOfRangeError DataModel := do
  let en ← m.get_sim_enabled
  if !en then
    pure m
  else do
    let state ← m.read_input Addresses.IR_FAN_STATE
    let base : Int := 225
    let delta : Int := if state = 0 then 30 else -5 * (state : Int)
    let temp : Int := max 150 (min 300 (base + delta + jt))
    let m1 := m.set_temperature temp.toNat
    let humidity : Int := 500 + jh
    let m2 := m1.set_humidity humidity.toNat
    let airflow_target : Nat :=
      if state = 0 then 0
      else if state = 1 then 200
      else 350
    let airflow_actual : Int := max 0 ((airflow_target : Int) + ja)
    let m3 := m2.set_airflow airflow_actual.toNat
    let dirty : Bool := decide (state > 0) && decide (airflow_actual < 100)
    pure (m3.set_filter_dirty dirty)

/-! ### Reduction lemmas for the monadic embedding -/

theorem except_ok_bind {ε α β : Type} (a : α) (f : α → Except ε β) :
    (Except.ok a : Except ε α) >>= f = f a := rfl

theorem except_pure_eq {ε α : Type} (a : α) :
    (pure a : Except ε α) = Except.ok a := rfl

namespace DataModel

theorem read_input_ok (m : DataModel) (a : Nat) (h : a < m.iRegsLen) :
    m.read_input a = .ok (m.iRegs a) := by
  unfold read_input RegisterStore.get_input_registers
  rw [if_pos (by omega)]
  simp

theorem read_input_oob (m : DataModel) (a : Nat) (h : m.iRegsLen ≤ a) :
    m.read_input a = .error ⟨"Input register", a⟩ := by
  unfold read_input RegisterStore.get_input_registers
  rw [if_neg (by omega)]

theorem read_holding_ok (m : DataModel) (a : Nat) (h : a < m.hRegsLen) :
    m.read_holding a = .ok (m.hRegs a) := by
  unfold read_holding RegisterStore.get_holding_registers
  rw [if_pos (by omega)]
  simp

theorem read_holding_oob (m : DataModel) (a : Nat) (h : m.hRegsLen ≤ a) :
    m.read_holding a = .error ⟨"Holding register", a⟩ := by
  unfold read_holding RegisterStore.get_holding_registers
  rw [if_neg (by omega)]

theorem read_coil_ok (m : DataModel) (a : Nat) (h : a < m.coilsLen) :
    m.read_coil a = .ok (m.coils a) := by
  unfold read_coil RegisterStore.get_coils
  rw [if_pos (by omega)]
  simp

theorem read_coil_oob (m : DataModel) (a : Nat) (h : m.coilsLen ≤ a) :
    m.read_coil a = .error ⟨"Coil", a⟩ := by
  unfold read_coil RegisterStore.get_coils
  rw [if_neg (by omega)]

theorem read_di_ok (m : DataModel) (a : Nat) (h : a < m.diLen) :
    m.read_di a = .ok (m.dInputs a) := by
  unfold read_di RegisterStore.get_discrete_inputs
  rw [if_pos (by omega)]
  simp

theorem read_di_oob (m : DataModel) (a : Nat) (h : m.diLen ≤ a) :
    m.read_di a = .error ⟨"Discrete input", a⟩ := by
  unfold read_di RegisterStore.get_discrete_inputs
  rw [if_neg (by omega)]

theorem write_input_iRegsLen (m : DataModel) (a v : Nat) :
    (m.write_input a v).iRegsLen = m.iRegsLen := by
  unfold write_input RegisterStore.set_input_registers
  split <;> rfl

theorem write_input_hRegsLen (m : DataModel) (a v : Nat) :
    (m.write_input a v).hRegsLen = m.hRegsLen := by
  unfold write_input RegisterStore.set_input_registers
  split <;> rfl

theorem write_input_hRegs (m : DataModel) (a v : Nat) :
    (m.write_input a v).hRegs = m.hRegs := by
  unfold write_input RegisterStore.set_input_registers
  split <;> rfl

theorem write_input_coilsLen (m : DataModel) (a v : Nat) :
    (m.write_input a v).coilsLen = m.coilsLen := by
  unfold write_input RegisterStore.set_input_registers
  split <;> rfl

theorem write_input_coils (m : DataModel) (a v : Nat) :
    (m.write_input a v).coils = m.coils := by
  unfold write_input RegisterStore.set_input_registers
  split <;> rfl

theorem write_input_diLen (m : DataModel) (a v : Nat) :
    (m.write_input a v).diLen = m.diLen := by
  unfold write_input RegisterStore.set_input_registers
  split <;> rfl

theorem write_input_dInputs (m : DataModel) (a v : Nat) :
    (m.write_input a v).dInputs = m.dInputs := by
  unfold write_input RegisterStore.set_input_registers
  split <;> rfl

theorem write_input_iRegs (m : DataModel) (a v : Nat) (h : a < m.iRegsLen) (x : Nat) :
    (m.write_input a v).iRegs x = if x = a then v else m.iRegs x := by
  unfold write_input RegisterStore.set_input_registers
  rw [if_pos (by simpa using h)]
  by_cases hx : x = a
  · subst hx
    simp
  · simp only [Option.getD_some, hx, if_false]
    rw [if_neg (by simp; omega)]

theorem write_input_oob (m : DataModel) (a v : Nat) (h : m.iRegsLen ≤ a) :
    m.write_input a v = m := by
  unfold write_input RegisterStore.set_input_registers
  rw [if_neg (by simp; omega)]
  rfl

theorem write_holding_iRegsLen (m : DataModel) (a v : Nat) :
    (m.write_holding a v).iRegsLen = m.iRegsLen := by
  unfold write_holding RegisterStore.set_holding_registers
  split <;> rfl

theorem write_holding_iRegs (m : DataModel) (a v : Nat) :
    (m.write_holding a v).iRegs = m.iRegs := by
  unfold write_holding RegisterStore.set_holding_registers
  split <;> rfl

theorem write_holding_hRegsLen (m : DataModel) (a v : Nat) :
    (m.write_holding a v).hRegsLen = m.hRegsLen := by
  unfold write_holding RegisterStore.set_holding_registers
  split <;> rfl

theorem write_holding_coilsLen (m : DataModel) (a v : Nat) :
    (m.write_holding a v).coilsLen = m.coilsLen := by
  unfold write_holding RegisterStore.set_holding_registers
  split <;> rfl

theorem write_holding_coils (m : DataModel) (a v : Nat) :
    (m.write_holding a v).coils = m.coils := by
  unfold write_holding RegisterStore.set_holding_registers
  split <;> rfl

theorem write_holding_diLen (m : DataModel) (a v : Nat) :
    (m.write_holding a v).diLen = m.diLen := by
  unfold write_holding RegisterStore.set_holding_registers
  split <;> rfl

theorem write_holding_dInputs (m : DataModel) (a v : Nat) :
    (m.write_holding a v).dInputs = m.dInputs := by
  unfold write_holding RegisterStore.set_holding_registers
  split <;> rfl

theorem write_holding_hRegs (m : DataModel) (a v : Nat) (h : a < m.hRegsLen) (x : Nat) :
    (m.write_holding a v).hRegs x = if x = a then v else m.hRegs x := by
  unfold write_holding RegisterStore.set_holding_registers
  rw [if_pos (by simpa using h)]
  by_cases hx : x = a
  · subst hx
    simp
  · simp only [Option.getD_some, hx, if_false]
    rw [if_neg (by simp; omega)]

theorem write_holding_oob (m : DataModel) (a v : Nat) (h : m.hRegsLen ≤ a) :
    m.write_holding a v = m := by
  unfold write_holding RegisterStore.set_holding_registers
  rw [if_neg (by simp; omega)]
  rfl

theorem write_coil_iRegsLen (m : DataModel) (a : Nat) (v : Bool) :
    (m.write_coil a v).iRegsLen = m.iRegsLen := by
  unfold write_coil RegisterStore.set_coils
  split <;> rfl

theorem write_coil_iRegs (m : DataModel) (a : Nat) (v : Bool) :
    (m.write_coil a v).iRegs = m.iRegs := by
  unfold write_coil RegisterStore.set_coils
  split <;> rfl

theorem write_coil_hRegsLen (m : DataModel) (a : Nat) (v : Bool) :
    (m.write_coil a v).hRegsLen = m.hRegsLen := by
  unfold write_coil RegisterStore.set_coils
  split <;> rfl

theorem write_coil_hRegs (m : DataModel) (a : Nat) (v : Bool) :
    (m.write_coil a v).hRegs = m.hRegs := by
  unfold write_coil RegisterStore.set_coils
  split <;> rfl

theorem write_coil_coilsLen (m : DataModel) (a : Nat) (v : Bool) :
    (m.write_coil a v).coilsLen = m.coilsLen := by
  unfold write_coil RegisterStore.set_coils
  split <;> rfl

theorem write_coil_diLen (m : DataModel) (a : Nat) (v : Bool) :
    (m.write_coil a v).diLen = m.diLen := by
  unfold write_coil RegisterStore.set_coils
  split <;> rfl

theorem write_coil_dInputs (m : DataModel) (a : Nat) (v : Bool) :
    (m.write_coil a v).dInputs = m.dInputs := by
  unfold write_coil RegisterStore.set_coils
  split <;> rfl

theorem write_coil_coils (m : DataModel) (a : Nat) (v : Bool) (h : a < m.coilsLen) (x : Nat) :
    (m.write_coil a v).coils x = if x = a then v else m.coils x := by
  unfold write_coil RegisterStore.set_coils
  rw [if_pos (by simpa using h)]
  by_cases hx : x = a
  · subst hx
    simp
  · simp only [Option.getD_some, hx, if_false]
    rw [if_neg (by simp; omega)]

theorem write_coil_oob (m : DataModel) (a : Nat) (v : Bool) (h : m.coilsLen ≤ a) :
    m.write_coil a v = m := by
  unfold write_coil RegisterStore.set_coils
  rw [if_neg (by simp; omega)]
  rfl

theorem write_di_iRegsLen (m : DataModel) (a : Nat) (v : Bool) :
    (m.write_di a v).iRegsLen = m.iRegsLen := by
  unfold write_di RegisterStore.set_discrete_inputs
  split <;> rfl

theorem write_di_iRegs (m : DataModel) (a : Nat) (v : Bool) :
    (m.write_di a v).iRegs = m.iRegs := by
  unfold write_di RegisterStore.set_discrete_inputs
  split <;> rfl

theorem write_di_hRegsLen (m : DataModel) (a : Nat) (v : Bool) :
    (m.write_di a v).hRegsLen = m.hRegsLen := by
  unfold write_di RegisterStore.set_discrete_inputs
  split <;> rfl

theorem write_di_hRegs (m : DataModel) (a : Nat) (v : Bool) :
    (m.write_di a v).hRegs = m.hRegs := by
  unfold write_di RegisterStore.set_discrete_inputs
  split <;> rfl

theorem write_di_coilsLen (m : DataModel) (a : Nat) (v : Bool) :
    (m.write_di a v).coilsLen = m.coilsLen := by
  unfold write_di RegisterStore.set_discrete_inputs
  split <;> rfl

theorem write_di_coils (m : DataModel) (a : Nat) (v : Bool) :
    (m.write_di a v).coils = m.coils := by
  unfold write_di RegisterStore.set_discrete_inputs
  split <;> rfl

theorem write_di_diLen (m : DataModel) (a : Nat) (v : Bool) :
    (m.write_di a v).diLen = m.diLen := by
  unfold write_di RegisterStore.set_discrete_inputs
  split <;> rfl

theorem write_di_dInputs (m : DataModel) (a : Nat) (v : Bool) (h : a < m.diLen) (x : Nat) :
    (m.write_di a v).dInputs x = if x = a then v else m.dInputs x := by
  unfold write_di RegisterStore.set_discrete_inputs
  rw [if_pos (by simpa using h)]
  by_cases hx : x = a
  · subst hx
    simp
  · simp only [Option.getD_some, hx, if_false]
    rw [if_neg (by simp; omega)]

theorem write_di_oob (m : DataModel) (a : Nat) (v : Bool) (h : m.diLen ≤ a) :
    m.write_di a v = m := by
  unfold write_di RegisterStore.set_discrete_inputs
  rw [if_neg (by simp; omega)]
  rfl

end DataModel

/-! ### Specification functions for one fan tick -/

/-- Specification function (fan.py lines 19–27): the fan state one
`FanController.update` tick derives from the register map. -/
def fanState (m : DataModel) : Nat :=
  if m.coils Addresses.COIL_FAN_ENABLE = false then 0
  else if m.hRegs Addresses.HR_FAN_MODE_CMD = 1 ∨ m.hRegs Addresses.HR_FAN_MODE_CMD = 2 then
    m.hRegs Addresses.HR_FAN_MODE_CMD
  else if m.coils Addresses.COIL_FAN_HIGH_REQ = true then 2 else 1

/-- Specification function (fan.py lines 30–37): the raw, pre-clamp RPM
one tick derives, with `j` the tick's jitter draw. -/
def fanRpmRaw (m : DataModel) (j : Int) : Int :=
  if fanState m = 0 then 0
  else if fanState m = 1 then ((3 * m.hRegs Addresses.HR_FAN_RPM_SP / 5 : Nat) : Int) + j
  else (m.hRegs Addresses.HR_FAN_RPM_SP : Int) + j

/-- The register map left behind by one fan tick that derived state
`st`, wrote RPM `R`, derived fault flag `F`, and saw alarm-reset coil
value `al`: helper description used to state the update lemmas. -/
def fanNext (m : DataModel) (st R : Nat) (F al : Bool) : DataModel :=
  if al then
    ((((m.set_fan_state st).set_fan_rpm R).set_fault F).write_coil
        Addresses.COIL_ALARM_RESET false).set_fault false
  else
    ((m.set_fan_state st).set_fan_rpm R).set_fault F

/-- One `FanController.update` tick on a well-sized register map
succeeds and produces exactly the `fanNext` map for the derived state,
clamped RPM, fault flag and the alarm-reset coil read. -/
theorem fanUpdate_ok (m : DataModel) (j : Int) (h : m.wellSized) :
    FanController.update m j =
      .ok (fanNext m (fanState m) (max 0 (fanRpmRaw m j)).toNat
        (decide (0 < fanState m) && decide (fanRpmRaw m j < 100))
        (m.coils Addresses.COIL_ALARM_RESET)) := by
  obtain ⟨hi5, hh5, hc3, hd3⟩ := h
  have hh2 : (2 : Nat) < m.hRegsLen := by omega
  have hh3 : (3 : Nat) < m.hRegsLen := by omega
  have hc0 : (0 : Nat) < m.coilsLen := by omega
  have hc1 : (1 : Nat) < m.coilsLen := by omega
  have hc2 : (2 : Nat) < m.coilsLen := by omega
  cases hcoil0 : m.coils 0 with
  | false =>
    by_cases halarm : m.coils 2 = true <;>
      simp [FanController.update, fanNext, fanState, fanRpmRaw,
        DataModel.fan_enable, DataModel.get_fan_mode_cmd, DataModel.fan_high_requested,
        DataModel.get_fan_rpm_sp, DataModel.consume_alarm_reset,
        DataModel.set_fan_state, DataModel.set_fan_rpm, DataModel.set_fault,
        Addresses.COIL_FAN_ENABLE, Addresses.COIL_FAN_HIGH_REQ, Addresses.COIL_ALARM_RESET,
        Addresses.HR_FAN_MODE_CMD, Addresses.HR_FAN_RPM_SP,
        Addresses.IR_FAN_STATE, Addresses.IR_FAN_RPM,
        Addresses.DI_FAN_FAULT, Addresses.DI_FAN_RUNNING,
        except_ok_bind, except_pure_eq,
        DataModel.read_coil_ok, DataModel.read_holding_ok,
        DataModel.write_input_iRegsLen, DataModel.write_input_hRegsLen,
        DataModel.write_input_hRegs, DataModel.write_input_coilsLen,
        DataModel.write_input_coils, DataModel.write_input_diLen,
        DataModel.write_input_dInputs,
        DataModel.write_di_iRegsLen, DataModel.write_di_iRegs,
        DataModel.write_di_hRegsLen, DataModel.write_di_hRegs,
        DataModel.write_di_coilsLen, DataModel.write_di_coils,
        DataModel.write_di_diLen,
        hcoil0, halarm, hh2, hh3, hc0, hc1, hc2]
  | true =>
    by_cases hm1 : m.hRegs 2 = 1
    · by_cases halarm : m.coils 2 = true <;>
        simp [FanController.update, fanNext, fanState, fanRpmRaw,
          DataModel.fan_enable, DataModel.get_fan_mode_cmd, DataModel.fan_high_requested,
          DataModel.get_fan_rpm_sp, DataModel.consume_alarm_reset,
          DataModel.set_fan_state, DataModel.set_fan_rpm, DataModel.set_fault,
          Addresses.COIL_FAN_ENABLE, Addresses.COIL_FAN_HIGH_REQ, Addresses.COIL_ALARM_RESET,
          Addresses.HR_FAN_MODE_CMD, Addresses.HR_FAN_RPM_SP,
          Addresses.IR_FAN_STATE, Addresses.IR_FAN_RPM,
          Addresses.DI_FAN_FAULT, Addresses.DI_FAN_RUNNING,
          except_ok_bind, except_pure_eq,
          DataModel.read_coil_ok, DataModel.read_holding_ok,
          DataModel.write_input_iRegsLen, DataModel.write_input_hRegsLen,
          DataModel.write_input_hRegs, DataModel.write_input_coilsLen,
          DataModel.write_input_coils, DataModel.write_input_diLen,
          DataModel.write_input_dInputs,
          DataModel.write_di_iRegsLen, DataModel.write_di_iRegs,
          DataModel.write_di_hRegsLen, DataModel.write_di_hRegs,
          DataModel.write_di_coilsLen, DataModel.write_di_coils,
          DataModel.write_di_diLen,
          hcoil0, hm1, halarm, hh2, hh3, hc0, hc1, hc2]
    · by_cases hm2 : m.hRegs 2 = 2
      · by_cases halarm : m.coils 2 = true <;>
          simp [FanController.update, fanNext, fanState, fanRpmRaw,
            DataModel.fan_enable, DataModel.get_fan_mode_cmd, DataModel.fan_high_requested,
            DataModel.get_fan_rpm_sp, DataModel.consume_alarm_reset,
            DataModel.set_fan_state, DataModel.set_fan_rpm, DataModel.set_fault,
            Addresses.COIL_FAN_ENABLE, Addresses.COIL_FAN_HIGH_REQ, Addresses.COIL_ALARM_RESET,
            Addresses.HR_FAN_MODE_CMD, Addresses.HR_FAN_RPM_SP,
            Addresses.IR_FAN_STATE, Addresses.IR_FAN_RPM,
            Addresses.DI_FAN_FAULT, Addresses.DI_FAN_RUNNING,
            except_ok_bind, except_pure_eq,
            DataModel.read_coil_ok, DataModel.read_holding_ok,
            DataModel.write_input_iRegsLen, DataModel.write_input_hRegsLen,
            DataModel.write_input_hRegs, DataModel.write_input_coilsLen,
            DataModel.write_input_coils, DataModel.write_input_diLen,
            DataModel.write_input_dInputs,
            DataModel.write_di_iRegsLen, DataModel.write_di_iRegs,
            DataModel.write_di_hRegsLen, DataModel.write_di_hRegs,
            DataModel.write_di_coilsLen, DataModel.write_di_coils,
            DataModel.write_di_diLen,
            hcoil0, hm1, hm2, halarm, hh2, hh3, hc0, hc1, hc2]
      · cases hhi : m.coils 1 <;> by_cases halarm : m.coils 2 = true <;>
          simp [FanController.update, fanNext, fanState, fanRpmRaw,
            DataModel.fan_enable, DataModel.get_fan_mode_cmd, DataModel.fan_high_requested,
            DataModel.get_fan_rpm_sp, DataModel.consume_alarm_reset,
            DataModel.set_fan_state, DataModel.set_fan_rpm, DataModel.set_fault,
            Addresses.COIL_FAN_ENABLE, Addresses.COIL_FAN_HIGH_REQ, Addresses.COIL_ALARM_RESET,
            Addresses.HR_FAN_MODE_CMD, Addresses.HR_FAN_RPM_SP,
            Addresses.IR_FAN_STATE, Addresses.IR_FAN_RPM,
            Addresses.DI_FAN_FAULT, Addresses.DI_FAN_RUNNING,
            except_ok_bind, except_pure_eq,
            DataModel.read_coil_ok, DataModel.read_holding_ok,
            DataModel.write_input_iRegsLen, DataModel.write_input_hRegsLen,
            DataModel.write_input_hRegs, DataModel.write_input_coilsLen,
            DataModel.write_input_coils, DataModel.write_input_diLen,
            DataModel.write_input_dInputs,
            DataModel.write_di_iRegsLen, DataModel.write_di_iRegs,
            DataModel.write_di_hRegsLen, DataModel.write_di_hRegs,
            DataModel.write_di_coilsLen, DataModel.write_di_coils,
            DataModel.write_di_diLen,
            hcoil0, hm1, hm2, hhi, halarm, hh2, hh3, hc0, hc1, hc2]

theorem fanNext_iRegs (m : DataModel) (st R : Nat) (F al : Bool)
    (hi : 5 ≤ m.iRegsLen) (a : Nat) :
    (fanNext m st R F al).iRegs a =
      if a = Addresses.IR_FAN_STATE then st
      else if a = Addresses.IR_FAN_RPM then R
      else m.iRegs a := by
  have hi3 : (3 : Nat) < m.iRegsLen := by omega
  have hi4 : (4 : Nat) < m.iRegsLen := by omega
  cases al <;> by_cases h4 : a = 4 <;> by_cases h3 : a = 3 <;>
    simp_all [fanNext, DataModel.set_fan_state, DataModel.set_fan_rpm, DataModel.set_fault,
      Addresses.IR_FAN_STATE, Addresses.IR_FAN_RPM, Addresses.DI_FAN_FAULT,
      Addresses.DI_FAN_RUNNING, Addresses.COIL_ALARM_RESET,
      DataModel.write_input_iRegs, DataModel.write_input_diLen, DataModel.write_input_iRegsLen,
      DataModel.write_di_iRegs, DataModel.write_di_iRegsLen, DataModel.write_di_diLen,
      DataModel.write_coil_iRegs, DataModel.write_coil_iRegsLen, DataModel.write_coil_diLen]

theorem fanNext_hRegs (m : DataModel) (st R : Nat) (F al : Bool) :
    (fanNext m st R F al).hRegs = m.hRegs := by
  cases al <;>
    simp [fanNext, DataModel.set_fan_state, DataModel.set_fan_rpm, DataModel.set_fault,
      DataModel.write_input_hRegs, DataModel.write_di_hRegs, DataModel.write_coil_hRegs]

theorem fanNext_coils (m : DataModel) (st R : Nat) (F al : Bool)
    (hc : 3 ≤ m.coilsLen) (a : Nat) :
    (fanNext m st R F al).coils a =
      if al = true ∧ a = Addresses.COIL_ALARM_RESET then false else m.coils a := by
  have hc2 : (2 : Nat) < m.coilsLen := by omega
  cases al <;> by_cases h2 : a = 2 <;>
    simp_all [fanNext, DataModel.set_fan_state, DataModel.set_fan_rpm, DataModel.set_fault,
      Addresses.COIL_ALARM_RESET, Addresses.DI_FAN_FAULT,
      DataModel.write_input_coils, DataModel.write_input_coilsLen,
      DataModel.write_di_coils, DataModel.write_di_coilsLen,
      DataModel.write_coil_coils, DataModel.write_coil_coilsLen, DataModel.write_coil_diLen,
      DataModel.write_input_diLen, DataModel.write_di_diLen]

theorem fanNext_dInputs (m : DataModel) (st R : Nat) (F al : Bool)
    (hi : 5 ≤ m.iRegsLen) (hd : 3 ≤ m.diLen) (a : Nat) :
    (fanNext m st R F al).dInputs a =
      if a = Addresses.DI_FAN_FAULT then (if al = true then false else F)
      else if a = Addresses.DI_FAN_RUNNING then decide (0 < st)
      else m.dInputs a := by
  have hd0 : (0 : Nat) < m.diLen := by omega
  have hd2 : (2 : Nat) < m.diLen := by omega
  cases al <;> by_cases h0 : a = 0 <;> by_cases h2 : a = 2 <;>
    simp_all [fanNext, DataModel.set_fan_state, DataModel.set_fan_rpm, DataModel.set_fault,
      Addresses.DI_FAN_FAULT, Addresses.DI_FAN_RUNNING, Addresses.COIL_ALARM_RESET,
      Addresses.IR_FAN_STATE, Addresses.IR_FAN_RPM,
      DataModel.write_input_dInputs, DataModel.write_input_diLen,
      DataModel.write_di_dInputs, DataModel.write_di_diLen,
      DataModel.write_coil_dInputs, DataModel.write_coil_diLen,
      DataModel.write_input_iRegsLen, DataModel.write_di_iRegsLen]

/-! ### Specification functions for one sensor tick -/

/-- Specification function (sensors.py lines 23–28): the clamped
temperature one sensor tick derives, with `jt` the jitter draw. -/
def sensorTemp (m : DataModel) (jt : Int) : Int :=
  max 150 (min 300 (225 +
    (if m.iRegs Addresses.IR_FAN_STATE = 0 then 30
     else -5 * (m.iRegs Addresses.IR_FAN_STATE : Int)) + jt))

/-- Specification function (sensors.py lines 35–40): the airflow target
selected by the fan state. -/
def sensorAirTarget (m : DataModel) : Nat :=
  if m.iRegs Addresses.IR_FAN_STATE = 0 then 0
  else if m.iRegs Addresses.IR_FAN_STATE = 1 then 200
  else 350

/-- Specification function (sensors.py line 41): the clamped actual airflow. -/
def sensorAirActual (m : DataModel) (ja : Int) : Int :=
  max 0 ((sensorAirTarget m : Int) + ja)

/-- The register map left behind by one enabled sensor tick: helper
description used to state the update lemmas. -/
def sensorNext (m : DataModel) (jt jh ja : Int) : DataModel :=
  (((m.set_temperature (sensorTemp m jt).toNat).set_humidity
      ((500 : Int) + jh).toNat).set_airflow
      (sensorAirActual m ja).toNat).set_filter_dirty
      (decide (0 < m.iRegs Addresses.IR_FAN_STATE) && decide (sensorAirActual m ja < 100))

/-- One `SensorSimulator.update` tick with the sim-enable holding
register equal to 1 succeeds and produces exactly the `sensorNext` map. -/
theorem sensorUpdate_ok (m : DataModel) (jt jh ja : Int) (h : m.wellSized)
    (he : m.hRegs Addresses.HR_SIM_ENABLE = 1) :
    SensorSimulator.update m jt jh ja = .ok (sensorNext m jt jh ja) := by
  obtain ⟨hi5, hh5, hc3, hd3⟩ := h
  have hh4 : (4 : Nat) < m.hRegsLen := by omega
  have hi4 : (4 : Nat) < m.iRegsLen := by omega
  have he4 : m.hRegs 4 = 1 := he
  simp [SensorSimulator.update, sensorNext, sensorTemp, sensorAirTarget, sensorAirActual,
    DataModel.get_sim_enabled, DataModel.set_temperature, DataModel.set_humidity,
    DataModel.set_airflow, DataModel.set_filter_dirty,
    Addresses.HR_SIM_ENABLE, Addresses.IR_FAN_STATE, Addresses.IR_TEMPERATURE,
    Addresses.IR_HUMIDITY, Addresses.IR_AIRFLOW, Addresses.DI_FILTER_DIRTY,
    except_ok_bind, except_pure_eq,
    DataModel.read_holding_ok, DataModel.read_input_ok,
    he4, hh4, hi4]

/-- One `SensorSimulator.update` tick with the sim-enable holding
register different from 1 performs no writes at all: the map is
returned unchanged. -/
theorem sensorUpdate_disabled (m : DataModel) (jt jh ja : Int)
    (h5 : 5 ≤ m.hRegsLen) (h0 : m.hRegs Addresses.HR_SIM_ENABLE ≠ 1) :
    SensorSimulator.update m jt jh ja = .ok m := by
  have hh4 : (4 : Nat) < m.hRegsLen := by omega
  have h04 : m.hRegs 4 ≠ 1 := h0
  simp [SensorSimulator.update, DataModel.get_sim_enabled,
    Addresses.HR_SIM_ENABLE, except_ok_bind, except_pure_eq,
    DataModel.read_holding_ok, hh4, h04]

theorem sensorNext_iRegs (m : DataModel) (jt jh ja : Int)
    (hi : 5 ≤ m.iRegsLen) (a : Nat) :
    (sensorNext m jt jh ja).iRegs a =
      if a = Addresses.IR_AIRFLOW then (sensorAirActual m ja).toNat
      else if a = Addresses.IR_TEMPERATURE then (sensorTemp m jt).toNat
      else if a = Addresses.IR_HUMIDITY then ((500 : Int) + jh).toNat
      else m.iRegs a := by
  have hi0 : (0 : Nat) < m.iRegsLen := by omega
  have hi1 : (1 : Nat) < m.iRegsLen := by omega
  have hi2 : (2 : Nat) < m.iRegsLen := by omega
  by_cases h0 : a = 0 <;> by_cases h1 : a = 1 <;> by_cases h2 : a = 2 <;>
    simp_all [sensorNext, DataModel.set_temperature, DataModel.set_humidity,
      DataModel.set_airflow, DataModel.set_filter_dirty,
      Addresses.IR_AIRFLOW, Addresses.IR_TEMPERATURE, Addresses.IR_HUMIDITY,
      Addresses.DI_FILTER_DIRTY,
      DataModel.write_input_iRegs, DataModel.write_input_iRegsLen,
      DataModel.write_di_iRegs, DataModel.write_di_iRegsLen]

theorem sensorNext_hRegs (m : DataModel) (jt jh ja : Int) :
    (sensorNext m jt jh ja).hRegs = m.hRegs := by
  simp [sensorNext, DataModel.set_temperature, DataModel.set_humidity,
    DataModel.set_airflow, DataModel.set_filter_dirty,
    DataModel.write_input_hRegs, DataModel.write_di_hRegs]

theorem sensorNext_coils (m : DataModel) (jt jh ja : Int) :
    (sensorNext m jt jh ja).coils = m.coils := by
  simp [sensorNext, DataModel.set_temperature, DataModel.set_humidity,
    DataModel.set_airflow, DataModel.set_filter_dirty,
    DataModel.write_input_coils, DataModel.write_di_coils]

theorem sensorNext_dInputs (m : DataModel) (jt jh ja : Int)
    (hd : 3 ≤ m.diLen) (a : Nat) :
    (sensorNext m jt jh ja).dInputs a =
      if a = Addresses.DI_FILTER_DIRTY then
        decide (0 < m.iRegs Addresses.IR_FAN_STATE) && decide (sensorAirActual m ja < 100)
      else m.dInputs a := by
  have hd1 : (1 : Nat) < m.diLen := by omega
  by_cases h1 : a = 1 <;>
    simp_all [sensorNext, DataModel.set_temperature, DataModel.set_humidity,
      DataModel.set_airflow, DataModel.set_filter_dirty,
      Addresses.DI_FILTER_DIRTY, Addresses.IR_FAN_STATE,
      DataModel.write_input_dInputs, DataModel.write_input_diLen,
      DataModel.write_di_dInputs, DataModel.write_di_diLen]

/-! ### Claims -/

/-- C1: for every register-map state, one `FanController.update`
derives the fan state with fixed precedence: if the fan-enable coil is
false the state written is OFF(0) regardless of all other inputs;
otherwise if the fan-mode-cmd holding register is 1 or 2 the state
written equals that value; otherwise the state written is HIGH(2) if
the fan-high-request coil is true and LOW(1) if it is false. -/
theorem fanUpdate_state_precedence (m : DataModel) (j : Int) (h : m.wellSized) :
    ∃ m', FanController.update m j = .ok m' ∧
      m'.iRegs Addresses.IR_FAN_STATE =
        (if m.coils Addresses.COIL_FAN_ENABLE = false then 0
         else if m.hRegs Addresses.HR_FAN_MODE_CMD = 1 ∨ m.hRegs Addresses.HR_FAN_MODE_CMD = 2
           then m.hRegs Addresses.HR_FAN_MODE_CMD
         else if m.coils Addresses.COIL_FAN_HIGH_REQ = true then 2 else 1) := by
  refine ⟨_, fanUpdate_ok m j h, ?_⟩
  rw [fanNext_iRegs m _ _ _ _ h.1]
  simp [fanState]

/-- C1 witness: the precedence theorem applied to the freshly
initialized data model with zero jitter. -/
theorem fanUpdate_state_precedence_witness :
    DataModel.init.wellSized ∧
    (∃ m', FanController.update DataModel.init 0 = .ok m' ∧
      m'.iRegs Addresses.IR_FAN_STATE =
        (if DataModel.init.coils Addresses.COIL_FAN_ENABLE = false then 0
         else if DataModel.init.hRegs Addresses.HR_FAN_MODE_CMD = 1 ∨
             DataModel.init.hRegs Addresses.HR_FAN_MODE_CMD = 2
           then DataModel.init.hRegs Addresses.HR_FAN_MODE_CMD
         else if DataModel.init.coils Addresses.COIL_FAN_HIGH_REQ = true then 2 else 1)) :=
  ⟨by decide, fanUpdate_state_precedence DataModel.init 0 (by decide)⟩

/-- C2: after one `FanController.update`, if the alarm-reset coil was
true at the start of the tick the fan-fault discrete input is false
regardless of the derived RPM; otherwise the fan-fault discrete input
is true iff the derived state is not OFF and the actual
(clamped-to-≥0) RPM written is below 100.  Fault derivation completes
before the alarm-reset check, so the reset has final say for the tick. -/
theorem fanUpdate_fault (m : DataModel) (j : Int) (h : m.wellSized) :
    ∃ m', FanController.update m j = .ok m' ∧
      (m.coils Addresses.COIL_ALARM_RESET = true →
        m'.dInputs Addresses.DI_FAN_FAULT = false) ∧
      (m.coils Addresses.COIL_ALARM_RESET = false →
        (m'.dInputs Addresses.DI_FAN_FAULT = true ↔
          (m'.iRegs Addresses.IR_FAN_STATE ≠ 0 ∧
            m'.iRegs Addresses.IR_FAN_RPM < 100))) := by
  refine ⟨_, fanUpdate_ok m j h, ?_, ?_⟩
  · intro hal
    rw [fanNext_dInputs m _ _ _ _ h.1 h.2.2.2]
    simp [hal]
  · intro hal
    rw [fanNext_dInputs m _ _ _ _ h.1 h.2.2.2,
      fanNext_iRegs m _ _ _ _ h.1, fanNext_iRegs m _ _ _ _ h.1]
    simp only [Addresses.DI_FAN_FAULT, Addresses.DI_FAN_RUNNING, Addresses.IR_FAN_STATE,
      Addresses.IR_FAN_RPM, hal]
    norm_num
    intro _
    omega

/-- C2 witness: the fault theorem applied to the freshly initialized
data model with zero jitter. -/
theorem fanUpdate_fault_witness :
    DataModel.init.wellSized ∧
    (∃ m', FanController.update DataModel.init 0 = .ok m' ∧
      (DataModel.init.coils Addresses.COIL_ALARM_RESET = true →
        m'.dInputs Addresses.DI_FAN_FAULT = false) ∧
      (DataModel.init.coils Addresses.COIL_ALARM_RESET = false →
        (m'.dInputs Addresses.DI_FAN_FAULT = true ↔
          (m'.iRegs Addresses.IR_FAN_STATE ≠ 0 ∧
            m'.iRegs Addresses.IR_FAN_RPM < 100)))) :=
  ⟨by decide, fanUpdate_fault DataModel.init 0 (by decide)⟩

/-- C3: `consume_alarm_reset` returns the current value of the
alarm-reset coil and, when that value is true, clears the coil before
returning; afterwards the coil is false and a subsequent call (with no
new external set) returns false and changes nothing, so exactly one
call observes true per external set. -/
theorem consume_alarm_reset_consumes (m : DataModel) (h : 3 ≤ m.coilsLen) :
    ∃ m', m.consume_alarm_reset = .ok (m.coils Addresses.COIL_ALARM_RESET, m') ∧
      m'.coils Addresses.COIL_ALARM_RESET = false ∧
      m'.consume_alarm_reset = .ok (false, m') := by
  have hc2 : (2 : Nat) < m.coilsLen := by omega
  cases hal : m.coils 2 with
  | false =>
    refine ⟨m, ?_, ?_, ?_⟩ <;>
      simp [DataModel.consume_alarm_reset, Addresses.COIL_ALARM_RESET,
        DataModel.read_coil_ok, except_ok_bind, except_pure_eq, hal, hc2]
  | true =>
    have hcc : ∀ x, (m.write_coil 2 false).coils x = if x = 2 then false else m.coils x :=
      DataModel.write_coil_coils m 2 false hc2
    refine ⟨m.write_coil 2 false, ?_, ?_, ?_⟩
    · simp [DataModel.consume_alarm_reset, Addresses.COIL_ALARM_RESET,
        DataModel.read_coil_ok, except_ok_bind, except_pure_eq, hal, hc2]
    · simp [Addresses.COIL_ALARM_RESET, hcc]
    · have hlen : (2 : Nat) < (m.write_coil 2 false).coilsLen := by
        rw [DataModel.write_coil_coilsLen]
        omega
      simp [DataModel.consume_alarm_reset, Addresses.COIL_ALARM_RESET,
        DataModel.read_coil_ok _ _ hlen, except_ok_bind, except_pure_eq, hcc]

/-- C3 witness: consuming on the initialized model after externally
setting the alarm-reset coil. -/
theorem consume_alarm_reset_consumes_witness :
    3 ≤ (DataModel.init.write_coil Addresses.COIL_ALARM_RESET true).coilsLen ∧
    (∃ m', (DataModel.init.write_coil Addresses.COIL_ALARM_RESET true).consume_alarm_reset =
        .ok ((DataModel.init.write_coil Addresses.COIL_ALARM_RESET true).coils
          Addresses.COIL_ALARM_RESET, m') ∧
      m'.coils Addresses.COIL_ALARM_RESET = false ∧
      m'.consume_alarm_reset = .ok (false, m')) :=
  ⟨by decide,
    consume_alarm_reset_consumes (DataModel.init.write_coil Addresses.COIL_ALARM_RESET true)
      (by decide)⟩

/-- C4: for every state s in {0,1,2}, `set_fan_state s` writes `s` to
the fan-state input register and `s > 0` to the fan-running discrete
input in the same call, so the running bit matches `state > 0` after
the call; consequently the consistency `running ⇔ state > 0` holds
after a fan tick and is preserved by a sensor tick. -/
theorem set_fan_state_running_bit (m : DataModel) (s : Nat) (h : m.wellSized) (hs : s ≤ 2) :
    (m.set_fan_state s).iRegs Addresses.IR_FAN_STATE = s ∧
    (m.set_fan_state s).dInputs Addresses.DI_FAN_RUNNING = decide (s > 0) ∧
    ((m.set_fan_state s).dInputs Addresses.DI_FAN_RUNNING = true ↔
      0 < (m.set_fan_state s).iRegs Addresses.IR_FAN_STATE) ∧
    (∀ j m', FanController.update m j = .ok m' →
      (m'.dInputs Addresses.DI_FAN_RUNNING = true ↔
        0 < m'.iRegs Addresses.IR_FAN_STATE)) ∧
    (∀ jt jh ja m', SensorSimulator.update m jt jh ja = .ok m' →
      (m.dInputs Addresses.DI_FAN_RUNNING = true ↔ 0 < m.iRegs Addresses.IR_FAN_STATE) →
      (m'.dInputs Addresses.DI_FAN_RUNNING = true ↔
        0 < m'.iRegs Addresses.IR_FAN_STATE)) := by
  obtain ⟨hi5, hh5, hc3, hd3⟩ := h
  have hi4 : (4 : Nat) < m.iRegsLen := by omega
  have hd2 : (2 : Nat) < m.diLen := by omega
  refine ⟨?_, ?_, ?_, ?_, ?_⟩
  · simp [DataModel.set_fan_state, Addresses.IR_FAN_STATE, Addresses.DI_FAN_RUNNING,
      DataModel.write_di_iRegs, DataModel.write_input_iRegs, hi4]
  · simp [DataModel.set_fan_state, Addresses.IR_FAN_STATE, Addresses.DI_FAN_RUNNING,
      DataModel.write_di_dInputs, DataModel.write_input_diLen, hd2]
  · simp [DataModel.set_fan_state, Addresses.IR_FAN_STATE, Addresses.DI_FAN_RUNNING,
      DataModel.write_di_iRegs, DataModel.write_input_iRegs,
      DataModel.write_di_dInputs, DataModel.write_input_diLen, hi4, hd2]
  · intro j m' hm
    rw [fanUpdate_ok m j ⟨hi5, hh5, hc3, hd3⟩] at hm
    cases hm
    rw [fanNext_dInputs m _ _ _ _ (by omega) (by omega),
      fanNext_iRegs m _ _ _ _ (by omega)]
    simp [Addresses.DI_FAN_RUNNING, Addresses.DI_FAN_FAULT, Addresses.IR_FAN_STATE,
      Addresses.IR_FAN_RPM]
  · intro jt jh ja m' hm hinv
    by_cases he : m.hRegs Addresses.HR_SIM_ENABLE = 1
    · rw [sensorUpdate_ok m jt jh ja ⟨hi5, hh5, hc3, hd3⟩ he] at hm
      cases hm
      rw [sensorNext_dInputs m _ _ _ (by omega), sensorNext_iRegs m _ _ _ (by omega)]
      simpa [Addresses.DI_FAN_RUNNING, Addresses.DI_FILTER_DIRTY, Addresses.IR_FAN_STATE,
        Addresses.IR_AIRFLOW, Addresses.IR_TEMPERATURE, Addresses.IR_HUMIDITY] using hinv
    · rw [sensorUpdate_disabled m jt jh ja (by omega) he] at hm
      cases hm
      exact hinv

/-- C4 witness: the pairing theorem applied to the initialized model
and state 2. -/
theorem set_fan_state_running_bit_witness :
    DataModel.init.wellSized ∧ (2 : Nat) ≤ 2 ∧
    ((DataModel.init.set_fan_state 2).iRegs Addresses.IR_FAN_STATE = 2 ∧
      (DataModel.init.set_fan_state 2).dInputs Addresses.DI_FAN_RUNNING = decide ((2 : Nat) > 0) ∧
      ((DataModel.init.set_fan_state 2).dInputs Addresses.DI_FAN_RUNNING = true ↔
        0 < (DataModel.init.set_fan_state 2).iRegs Addresses.IR_FAN_STATE) ∧
      (∀ j m', FanController.update DataModel.init j = .ok m' →
        (m'.dInputs Addresses.DI_FAN_RUNNING = true ↔
          0 < m'.iRegs Addresses.IR_FAN_STATE)) ∧
      (∀ jt jh ja m', SensorSimulator.update DataModel.init jt jh ja = .ok m' →
        (DataModel.init.dInputs Addresses.DI_FAN_RUNNING = true ↔
          0 < DataModel.init.iRegs Addresses.IR_FAN_STATE) →
        (m'.dInputs Addresses.DI_FAN_RUNNING = true ↔
          0 < m'.iRegs Addresses.IR_FAN_STATE))) :=
  ⟨by decide, by decide, set_fan_state_running_bit DataModel.init 2 (by decide) (by decide)⟩

/-- C6: for every non-negative 16-bit RPM setpoint and every jitter
value, one `FanController.update` writes an actual RPM of 0 when the
derived state is OFF, `⌊setpoint·0.6⌋ + jitter` when it is LOW
(`int(rpm_sp * 0.6)` equals `⌊3·sp/5⌋` throughout the 16-bit range),
and `setpoint + jitter` when it is HIGH, the written value clamped to
be ≥ 0; in particular with jitter 0, setpoint 500 in LOW yields RPM
300 and setpoint 800 in HIGH yields RPM 800. -/
theorem fanUpdate_rpm (m : DataModel) (j : Int) (h : m.wellSized)
    (hsp : m.hRegs Addresses.HR_FAN_RPM_SP ≤ 65535) :
    (∃ m', FanController.update m j = .ok m' ∧
      (m'.iRegs Addresses.IR_FAN_STATE = 0 → m'.iRegs Addresses.IR_FAN_RPM = 0) ∧
      (m'.iRegs Addresses.IR_FAN_STATE = 1 →
        (m'.iRegs Addresses.IR_FAN_RPM : Int) =
          max 0 (((3 * m.hRegs Addresses.HR_FAN_RPM_SP / 5 : Nat) : Int) + j)) ∧
      (m'.iRegs Addresses.IR_FAN_STATE = 2 →
        (m'.iRegs Addresses.IR_FAN_RPM : Int) =
          max 0 ((m.hRegs Addresses.HR_FAN_RPM_SP : Int) + j))) ∧
    (∀ m', FanController.update
        ((DataModel.init.write_holding Addresses.HR_FAN_MODE_CMD 1).write_holding
          Addresses.HR_FAN_RPM_SP 500) 0 = .ok m' →
      m'.iRegs Addresses.IR_FAN_RPM = 300) ∧
    (∀ m', FanController.update
        ((DataModel.init.write_holding Addresses.HR_FAN_MODE_CMD 2).write_holding
          Addresses.HR_FAN_RPM_SP 800) 0 = .ok m' →
      m'.iRegs Addresses.IR_FAN_RPM = 800) := by
  refine ⟨⟨_, fanUpdate_ok m j h, ?_, ?_, ?_⟩, ?_, ?_⟩
  · intro hst
    rw [fanNext_iRegs m _ _ _ _ h.1] at hst ⊢
    simp only [Addresses.IR_FAN_STATE, Addresses.IR_FAN_RPM] at hst ⊢
    norm_num at hst ⊢
    simp [fanRpmRaw, hst]
  · intro hst
    rw [fanNext_iRegs m _ _ _ _ h.1] at hst ⊢
    simp only [Addresses.IR_FAN_STATE, Addresses.IR_FAN_RPM] at hst ⊢
    norm_num at hst ⊢
    rw [show fanRpmRaw m j = ((3 * m.hRegs 3 / 5 : Nat) : Int) + j by
      simp [fanRpmRaw, Addresses.HR_FAN_RPM_SP, hst]]
    push_cast [Addresses.HR_FAN_RPM_SP]
    ring_nf
  · intro hst
    rw [fanNext_iRegs m _ _ _ _ h.1] at hst ⊢
    simp only [Addresses.IR_FAN_STATE, Addresses.IR_FAN_RPM] at hst ⊢
    norm_num at hst ⊢
    rw [show fanRpmRaw m j = (m.hRegs 3 : Int) + j by
      simp [fanRpmRaw, Addresses.HR_FAN_RPM_SP, hst]]
    simp [Addresses.HR_FAN_RPM_SP]
  · intro m' hm
    rw [fanUpdate_ok _ 0 (by decide)] at hm
    cases hm
    decide
  · intro m' hm
    rw [fanUpdate_ok _ 0 (by decide)] at hm
    cases hm
    decide

/-- C6 witness: the RPM theorem applied to a model commanding LOW with
setpoint 500 and zero jitter. -/
theorem fanUpdate_rpm_witness :
    ((DataModel.init.write_holding Addresses.HR_FAN_MODE_CMD 1).write_holding
        Addresses.HR_FAN_RPM_SP 500).wellSized ∧
    ((DataModel.init.write_holding Addresses.HR_FAN_MODE_CMD 1).write_holding
        Addresses.HR_FAN_RPM_SP 500).hRegs Addresses.HR_FAN_RPM_SP ≤ 65535 ∧
    ((∃ m', FanController.update
        ((DataModel.init.write_holding Addresses.HR_FAN_MODE_CMD 1).write_holding
          Addresses.HR_FAN_RPM_SP 500) 0 = .ok m' ∧
      (m'.iRegs Addresses.IR_FAN_STATE = 0 → m'.iRegs Addresses.IR_FAN_RPM = 0) ∧
      (m'.iRegs Addresses.IR_FAN_STATE = 1 →
        (m'.iRegs Addresses.IR_FAN_RPM : Int) =
          max 0 (((3 * ((DataModel.init.write_holding Addresses.HR_FAN_MODE_CMD 1).write_holding
            Addresses.HR_FAN_RPM_SP 500).hRegs Addresses.HR_FAN_RPM_SP / 5 : Nat) : Int) + 0)) ∧
      (m'.iRegs Addresses.IR_FAN_STATE = 2 →
        (m'.iRegs Addresses.IR_FAN_RPM : Int) =
          max 0 ((((DataModel.init.write_holding Addresses.HR_FAN_MODE_CMD 1).write_holding
            Addresses.HR_FAN_RPM_SP 500).hRegs Addresses.HR_FAN_RPM_SP : Int) + 0))) ∧
    (∀ m', FanController.update
        ((DataModel.init.write_holding Addresses.HR_FAN_MODE_CMD 1).write_holding
          Addresses.HR_FAN_RPM_SP 500) 0 = .ok m' →
      m'.iRegs Addresses.IR_FAN_RPM = 300) ∧
    (∀ m', FanController.update
        ((DataModel.init.write_holding Addresses.HR_FAN_MODE_CMD 2).write_holding
          Addresses.HR_FAN_RPM_SP 800) 0 = .ok m' →
      m'.iRegs Addresses.IR_FAN_RPM = 800)) :=
  ⟨by decide, by decide,
    fanUpdate_rpm
      ((DataModel.init.write_holding Addresses.HR_FAN_MODE_CMD 1).write_holding
        Addresses.HR_FAN_RPM_SP 500) 0 (by decide) (by decide)⟩

/-- C10: for every starting register-map state, `FanController.update`
writes only the fan-state and fan-RPM input registers, the fan-running
and fan-fault discrete inputs, and (at most, to clear it) the
alarm-reset coil; every holding register, the other coils, the other
discrete inputs (including filter-dirty) and the other input registers
(airflow, temperature, humidity) are unchanged by the call. -/
theorem fanUpdate_frame (m : DataModel) (j : Int) (h : m.wellSized) :
    ∃ m', FanController.update m j = .ok m' ∧
      (∀ a, a ≠ Addresses.IR_FAN_STATE → a ≠ Addresses.IR_FAN_RPM →
        m'.iRegs a = m.iRegs a) ∧
      (∀ a, m'.hRegs a = m.hRegs a) ∧
      (∀ a, a ≠ Addresses.COIL_ALARM_RESET → m'.coils a = m.coils a) ∧
      (m'.coils Addresses.COIL_ALARM_RESET = m.coils Addresses.COIL_ALARM_RESET ∨
        m'.coils Addresses.COIL_ALARM_RESET = false) ∧
      (∀ a, a ≠ Addresses.DI_FAN_FAULT → a ≠ Addresses.DI_FAN_RUNNING →
        m'.dInputs a = m.dInputs a) := by
  refine ⟨_, fanUpdate_ok m j h, ?_, ?_, ?_, ?_, ?_⟩
  · intro a h4 h3
    rw [fanNext_iRegs m _ _ _ _ h.1]
    simp [h4, h3]
  · intro a
    rw [fanNext_hRegs]
  · intro a h2
    rw [fanNext_coils m _ _ _ _ h.2.2.1]
    simp [h2]
  · rw [fanNext_coils m _ _ _ _ h.2.2.1]
    cases hal : m.coils Addresses.COIL_ALARM_RESET <;> simp [hal]
  · intro a h0 h2
    rw [fanNext_dInputs m _ _ _ _ h.1 h.2.2.2]
    simp [h0, h2]

/-- C10 witness: the frame theorem applied to the initialized model
with zero jitter. -/
theorem fanUpdate_frame_witness :
    DataModel.init.wellSized ∧
    (∃ m', FanController.update DataModel.init 0 = .ok m' ∧
      (∀ a, a ≠ Addresses.IR_FAN_STATE → a ≠ Addresses.IR_FAN_RPM →
        m'.iRegs a = DataModel.init.iRegs a) ∧
      (∀ a, m'.hRegs a = DataModel.init.hRegs a) ∧
      (∀ a, a ≠ Addresses.COIL_ALARM_RESET → m'.coils a = DataModel.init.coils a) ∧
      (m'.coils Addresses.COIL_ALARM_RESET =
          DataModel.init.coils Addresses.COIL_ALARM_RESET ∨
        m'.coils Addresses.COIL_ALARM_RESET = false) ∧
      (∀ a, a ≠ Addresses.DI_FAN_FAULT → a ≠ Addresses.DI_FAN_RUNNING →
        m'.dInputs a = DataModel.init.dInputs a)) :=
  ⟨by decide, fanUpdate_frame DataModel.init 0 (by decide)⟩

/-- C9: when the sim-enable holding register is 0,
`SensorSimulator.update` performs no writes at all: the register map
after the call is the same map, every cell of every bank included. -/
theorem sensorUpdate_sim_zero (m : DataModel) (jt jh ja : Int)
    (h : m.wellSized) (h0 : m.hRegs Addresses.HR_SIM_ENABLE = 0) :
    SensorSimulator.update m jt jh ja = .ok m :=
  sensorUpdate_disabled m jt jh ja h.2.1 (by rw [h0]; exact Nat.zero_ne_one)

/-- C9 witness: a sensor tick on the initialized model with sim-enable
forced to 0 returns the map unchanged. -/
theorem sensorUpdate_sim_zero_witness :
    (DataModel.init.write_holding Addresses.HR_SIM_ENABLE 0).wellSized ∧
    (DataModel.init.write_holding Addresses.HR_SIM_ENABLE 0).hRegs
      Addresses.HR_SIM_ENABLE = 0 ∧
    SensorSimulator.update (DataModel.init.write_holding Addresses.HR_SIM_ENABLE 0) 5 7 9 =
      .ok (DataModel.init.write_holding Addresses.HR_SIM_ENABLE 0) :=
  ⟨by decide, by decide,
    sensorUpdate_sim_zero (DataModel.init.write_holding Addresses.HR_SIM_ENABLE 0) 5 7 9
      (by decide) (by decide)⟩

/-- C7 counterexample: sim-enable = 2 is nonzero, yet the sensor tick
writes nothing (the code tests `== 1`, not nonzero): the temperature
register keeps its old value 0 instead of the claimed 255 for fan
state 0 with zero jitter. -/
theorem sensorUpdate_nonzero_cex :
    SensorSimulator.update (DataModel.init.write_holding Addresses.HR_SIM_ENABLE 2) 0 0 0 =
      .ok (DataModel.init.write_holding Addresses.HR_SIM_ENABLE 2) ∧
    (DataModel.init.write_holding Addresses.HR_SIM_ENABLE 2).hRegs
      Addresses.HR_SIM_ENABLE ≠ 0 ∧
    (DataModel.init.write_holding Addresses.HR_SIM_ENABLE 2).iRegs
      Addresses.IR_FAN_STATE = 0 ∧
    (DataModel.init.write_holding Addresses.HR_SIM_ENABLE 2).iRegs
      Addresses.IR_TEMPERATURE = 0 :=
  ⟨rfl, by decide, by decide, by decide⟩

/-- C7 (amended: sim-enable equal to 1, not merely nonzero): one
`SensorSimulator.update` writes temperature `225 + (30 if the fan
state is OFF else -5·state) + jitter`, clamped into [150, 300]; with
jitter 0 this gives 255/220/215 for states 0/1/2, and for any jitter
the written temperature never leaves [150, 300]. -/
theorem sensorUpdate_temperature (m : DataModel) (jt jh ja : Int)
    (h : m.wellSized) (he : m.hRegs Addresses.HR_SIM_ENABLE = 1) :
    ∃ m', SensorSimulator.update m jt jh ja = .ok m' ∧
      (m'.iRegs Addresses.IR_TEMPERATURE : Int) =
        max 150 (min 300 (225 +
          (if m.iRegs Addresses.IR_FAN_STATE = 0 then 30
           else -5 * (m.iRegs Addresses.IR_FAN_STATE : Int)) + jt)) ∧
      150 ≤ m'.iRegs Addresses.IR_TEMPERATURE ∧
      m'.iRegs Addresses.IR_TEMPERATURE ≤ 300 ∧
      (jt = 0 → m.iRegs Addresses.IR_FAN_STATE = 0 →
        m'.iRegs Addresses.IR_TEMPERATURE = 255) ∧
      (jt = 0 → m.iRegs Addresses.IR_FAN_STATE = 1 →
        m'.iRegs Addresses.IR_TEMPERATURE = 220) ∧
      (jt = 0 → m.iRegs Addresses.IR_FAN_STATE = 2 →
        m'.iRegs Addresses.IR_TEMPERATURE = 215) := by
  have h150 : (150 : Int) ≤ sensorTemp m jt := le_max_left _ _
  have h300 : sensorTemp m jt ≤ 300 := max_le (by norm_num) (min_le_left _ _)
  have hir : ∀ x : Nat, (sensorNext m jt jh ja).iRegs x =
      if x = Addresses.IR_AIRFLOW then (sensorAirActual m ja).toNat
      else if x = Addresses.IR_TEMPERATURE then (sensorTemp m jt).toNat
      else if x = Addresses.IR_HUMIDITY then ((500 : Int) + jh).toNat
      else m.iRegs x :=
    sensorNext_iRegs m jt jh ja h.1
  have htmp : (sensorNext m jt jh ja).iRegs Addresses.IR_TEMPERATURE =
      (sensorTemp m jt).toNat := by
    rw [hir]
    simp [Addresses.IR_AIRFLOW, Addresses.IR_TEMPERATURE]
  refine ⟨_, sensorUpdate_ok m jt jh ja h he, ?_, ?_, ?_, ?_, ?_, ?_⟩
  · rw [htmp, Int.toNat_of_nonneg (by omega)]
    simp [sensorTemp]
  · rw [htmp]
    omega
  · rw [htmp]
    omega
  · intro hjt hst
    have hst4 : m.iRegs 4 = 0 := hst
    rw [htmp]
    simp [sensorTemp, Addresses.IR_FAN_STATE, hst4, hjt]
  · intro hjt hst
    have hst4 : m.iRegs 4 = 1 := hst
    rw [htmp]
    simp [sensorTemp, Addresses.IR_FAN_STATE, hst4, hjt]
  · intro hjt hst
    have hst4 : m.iRegs 4 = 2 := hst
    rw [htmp]
    simp [sensorTemp, Addresses.IR_FAN_STATE, hst4, hjt]

/-- C7 witness: the amended temperature theorem applied to the
initialized model (sim-enable 1, fan state 0) with zero jitter. -/
theorem sensorUpdate_temperature_witness :
    DataModel.init.wellSized ∧
    DataModel.init.hRegs Addresses.HR_SIM_ENABLE = 1 ∧
    (∃ m', SensorSimulator.update DataModel.init 0 0 0 = .ok m' ∧
      (m'.iRegs Addresses.IR_TEMPERATURE : Int) =
        max 150 (min 300 (225 +
          (if DataModel.init.iRegs Addresses.IR_FAN_STATE = 0 then 30
           else -5 * (DataModel.init.iRegs Addresses.IR_FAN_STATE : Int)) + 0)) ∧
      150 ≤ m'.iRegs Addresses.IR_TEMPERATURE ∧
      m'.iRegs Addresses.IR_TEMPERATURE ≤ 300 ∧
      ((0 : Int) = 0 → DataModel.init.iRegs Addresses.IR_FAN_STATE = 0 →
        m'.iRegs Addresses.IR_TEMPERATURE = 255) ∧
      ((0 : Int) = 0 → DataModel.init.iRegs Addresses.IR_FAN_STATE = 1 →
        m'.iRegs Addresses.IR_TEMPERATURE = 220) ∧
      ((0 : Int) = 0 → DataModel.init.iRegs Addresses.IR_FAN_STATE = 2 →
        m'.iRegs Addresses.IR_TEMPERATURE = 215)) :=
  ⟨by decide, by decide, sensorUpdate_temperature DataModel.init 0 0 0 (by decide) (by decide)⟩

/-- C8 counterexample: sim-enable = 2 is nonzero, yet the sensor tick
writes nothing (the code tests `== 1`): with fan state 1 and zero
airflow jitter the claim predicts airflow 200 written and filter-dirty
false, but the tick leaves filter-dirty true and airflow 0. -/
theorem sensorUpdate_dirty_nonzero_cex :
    SensorSimulator.update
        (((DataModel.init.write_holding Addresses.HR_SIM_ENABLE 2).write_input
          Addresses.IR_FAN_STATE 1).write_di Addresses.DI_FILTER_DIRTY true) 0 0 0 =
      .ok (((DataModel.init.write_holding Addresses.HR_SIM_ENABLE 2).write_input
          Addresses.IR_FAN_STATE 1).write_di Addresses.DI_FILTER_DIRTY true) ∧
    (((DataModel.init.write_holding Addresses.HR_SIM_ENABLE 2).write_input
        Addresses.IR_FAN_STATE 1).write_di Addresses.DI_FILTER_DIRTY true).hRegs
      Addresses.HR_SIM_ENABLE ≠ 0 ∧
    (((DataModel.init.write_holding Addresses.HR_SIM_ENABLE 2).write_input
        Addresses.IR_FAN_STATE 1).write_di Addresses.DI_FILTER_DIRTY true).iRegs
      Addresses.IR_FAN_STATE = 1 ∧
    (((DataModel.init.write_holding Addresses.HR_SIM_ENABLE 2).write_input
        Addresses.IR_FAN_STATE 1).write_di Addresses.DI_FILTER_DIRTY true).dInputs
      Addresses.DI_FILTER_DIRTY = true ∧
    (((DataModel.init.write_holding Addresses.HR_SIM_ENABLE 2).write_input
        Addresses.IR_FAN_STATE 1).write_di Addresses.DI_FILTER_DIRTY true).iRegs
      Addresses.IR_AIRFLOW = 0 :=
  ⟨rfl, by decide, by decide, by decide, by decide⟩

/-- C8 (amended: sim-enable equal to 1, not merely nonzero): after one
`SensorSimulator.update` the filter-dirty discrete input is true iff
the fan state read at the start of the update is not OFF and the
actual airflow written in that same update (max of 0 and the 0/200/350
target plus jitter) is below 100; airflow 0 with state 0 leaves
filter-dirty false. -/
theorem sensorUpdate_filter_dirty (m : DataModel) (jt jh ja : Int)
    (h : m.wellSized) (he : m.hRegs Addresses.HR_SIM_ENABLE = 1) :
    ∃ m', SensorSimulator.update m jt jh ja = .ok m' ∧
      (m'.iRegs Addresses.IR_AIRFLOW : Int) =
        max 0 ((if m.iRegs Addresses.IR_FAN_STATE = 0 then 0
                else if m.iRegs Addresses.IR_FAN_STATE = 1 then 200 else 350) + ja) ∧
      (m'.dInputs Addresses.DI_FILTER_DIRTY = true ↔
        (m.iRegs Addresses.IR_FAN_STATE ≠ 0 ∧
          m'.iRegs Addresses.IR_AIRFLOW < 100)) ∧
      (m.iRegs Addresses.IR_FAN_STATE = 0 →
        m'.dInputs Addresses.DI_FILTER_DIRTY = false) := by
  have hair : (sensorNext m jt jh ja).iRegs Addresses.IR_AIRFLOW =
      (sensorAirActual m ja).toNat := by
    rw [sensorNext_iRegs m jt jh ja h.1]
    simp [Addresses.IR_AIRFLOW]
  have hdi : (sensorNext m jt jh ja).dInputs Addresses.DI_FILTER_DIRTY =
      (decide (0 < m.iRegs Addresses.IR_FAN_STATE) &&
        decide (sensorAirActual m ja < 100)) := by
    rw [sensorNext_dInputs m jt jh ja h.2.2.2]
    simp
  refine ⟨_, sensorUpdate_ok m jt jh ja h he, ?_, ?_, ?_⟩
  · have hnn : (0 : Int) ≤ sensorAirActual m ja := le_max_left 0 _
    rw [hair, Int.toNat_of_nonneg hnn]
    simp only [sensorAirActual, sensorAirTarget]
    push_cast
    ring_nf
  · rw [hdi, hair]
    simp only [Bool.and_eq_true, decide_eq_true_eq, Addresses.IR_FAN_STATE]
    omega
  · intro hst
    rw [hdi]
    simp [hst]

/-- C8 witness: the amended filter-dirty theorem applied to a model
with fan state 1 and airflow jitter -150 (derived airflow 50 < 100). -/
theorem sensorUpdate_filter_dirty_witness :
    (DataModel.init.write_input Addresses.IR_FAN_STATE 1).wellSized ∧
    (DataModel.init.write_input Addresses.IR_FAN_STATE 1).hRegs
      Addresses.HR_SIM_ENABLE = 1 ∧
    (∃ m', SensorSimulator.update
        (DataModel.init.write_input Addresses.IR_FAN_STATE 1) 0 0 (-150) = .ok m' ∧
      (m'.iRegs Addresses.IR_AIRFLOW : Int) =
        max 0 ((if (DataModel.init.write_input Addresses.IR_FAN_STATE 1).iRegs
              Addresses.IR_FAN_STATE = 0 then 0
            else if (DataModel.init.write_input Addresses.IR_FAN_STATE 1).iRegs
              Addresses.IR_FAN_STATE = 1 then 200 else 350) + (-150)) ∧
      (m'.dInputs Addresses.DI_FILTER_DIRTY = true ↔
        ((DataModel.init.write_input Addresses.IR_FAN_STATE 1).iRegs
            Addresses.IR_FAN_STATE ≠ 0 ∧
          m'.iRegs Addresses.IR_AIRFLOW < 100)) ∧
      ((DataModel.init.write_input Addresses.IR_FAN_STATE 1).iRegs
          Addresses.IR_FAN_STATE = 0 →
        m'.dInputs Addresses.DI_FILTER_DIRTY = false)) :=
  ⟨by decide, by decide,
    sensorUpdate_filter_dirty (DataModel.init.write_input Addresses.IR_FAN_STATE 1)
      0 0 (-150) (by decide) (by decide)⟩

/-- C5 counterexample: at address 100 — beyond the 32-cell input
register bank of the initialized model — the Register Store reports
OutOfRange (`none`), yet `write_input` returns normally with the map
unchanged: the write surfaces no failure at all, contradicting the
claim that every generic write signals a distinguishable out-of-range
failure and never silently succeeds. -/
theorem write_oob_silent_cex :
    DataModel.init.iRegsLen = 32 ∧
    RegisterStore.set_input_registers DataModel.init 100 [7] = none ∧
    DataModel.init.write_input 100 7 = DataModel.init :=
  ⟨by decide, rfl, rfl⟩

/-- C5 (amended): every generic single-cell read at an address beyond
the bank's configured length raises a distinguishable out-of-range
error identifying the bank and the address, never returning a default
or truncated value; every generic single-cell write at such an address
is silently ignored — the Python writers discard the store's
OutOfRange result, so the map is unchanged and no failure surfaces. -/
theorem data_model_oob_access (m : DataModel) (a : Nat) (v : Nat) (b : Bool)
    (hi : m.iRegsLen ≤ a) (hh : m.hRegsLen ≤ a)
    (hc : m.coilsLen ≤ a) (hd : m.diLen ≤ a) :
    m.read_input a = .error ⟨"Input register", a⟩ ∧
    m.read_holding a = .error ⟨"Holding register", a⟩ ∧
    m.read_coil a = .error ⟨"Coil", a⟩ ∧
    m.read_di a = .error ⟨"Discrete input", a⟩ ∧
    m.write_input a v = m ∧
    m.write_holding a v = m ∧
    m.write_coil a b = m ∧
    m.write_di a b = m :=
  ⟨DataModel.read_input_oob m a hi, DataModel.read_holding_oob m a hh,
    DataModel.read_coil_oob m a hc, DataModel.read_di_oob m a hd,
    DataModel.write_input_oob m a v hi, DataModel.write_holding_oob m a v hh,
    DataModel.write_coil_oob m a b hc, DataModel.write_di_oob m a b hd⟩

/-- C5 witness: the amended out-of-range theorem applied to the
initialized model at address 40 (beyond all four banks). -/
theorem data_model_oob_access_witness :
    DataModel.init.iRegsLen ≤ 40 ∧ DataModel.init.hRegsLen ≤ 40 ∧
    DataModel.init.coilsLen ≤ 40 ∧ DataModel.init.diLen ≤ 40 ∧
    (DataModel.init.read_input 40 = .error ⟨"Input register", 40⟩ ∧
      DataModel.init.read_holding 40 = .error ⟨"Holding register", 40⟩ ∧
      DataModel.init.read_coil 40 = .error ⟨"Coil", 40⟩ ∧
      DataModel.init.read_di 40 = .error ⟨"Discrete input", 40⟩ ∧
      DataModel.init.write_input 40 7 = DataModel.init ∧
      DataModel.init.write_holding 40 7 = DataModel.init ∧
      DataModel.init.write_coil 40 true = DataModel.init ∧
      DataModel.init.write_di 40 true = DataModel.init) :=
  ⟨by decide, by decide, by decide, by decide,
    data_model_oob_access DataModel.init 40 7 true
      (by decide) (by decide) (by decide) (by decide)⟩
